import Mathlib

/-
  Verification development for the dra release-asset download/install pipeline.

  Shallow embedding of the Rust sources:
    src/cli/handlers/download/mod.rs   (DownloadHandler: run, select_asset,
                                        autoselect_asset, maybe_install,
                                        output_dir_or_cwd, dir_or_error,
                                        download_asset, choose_output_path_from)
    src/cli/handlers/download.rs       (earlier revision of the handler)
    src/installer/command.rs           (exec_command, handle_command_output)
    src/installer/compressed_file.rs   (CompressedFileInstaller, permissions)
    src/installer/debian.rs            (DebianInstaller)

  Machine strings stay Lean Strings; file contents are lists of bytes
  (List Nat); the filesystem, process spawning and the download stream are
  explicit environment values threaded through the definitions.
-/

namespace Dra

/-! ## Data model (src/github/release.rs shapes, as used by the handlers) -/

/-- A release asset: identity is `name`, plus its download url. -/
structure Asset where
  name : String
  download_url : String
deriving DecidableEq, Repr

/-- A release's version tag (tuple struct `Tag(String)` in the source). -/
structure Tag where
  val : String
deriving DecidableEq, Repr

/-- A release: its tag and the ordered candidate set of assets. -/
structure Release where
  tag : Tag
  assets : List Asset
deriving Repr

/-- A github repository `owner/repo`. -/
structure Repository where
  owner : String
  repo : String
deriving Repr

/-- Handler-level error: a displayable message (`HandlerError::new(msg)`). -/
structure HandlerError where
  msg : String
deriving DecidableEq, Repr

/-- Installer-level error. The provided sources only construct the
`Fatal(message)` variant of `InstallError`. -/
inductive InstallError where
  | Fatal (m : String)
deriving DecidableEq, Repr

/-- `InstallError`'s display form (`x.to_string()` as used by the handler). -/
def InstallError.display : InstallError → String
  | .Fatal m => m

/-! ## AssetMatcher (spec §4.1)

`find_asset_by_system` lives in
`src/cli/handlers/download/find_asset_by_system.rs`, which is not among the
provided sources; only its caller `DownloadHandler::select_asset` is. -/

/-- Split a character list into maximal runs of non-separator characters;
`cur` accumulates the current run in reverse. -/
def tokenSplit (sep : Char → Bool) : List Char → List Char → List String
  | [], cur => if cur.isEmpty then [] else [String.mk cur.reverse]
  | c :: cs, cur =>
    if sep c then
      if cur.isEmpty then tokenSplit sep cs []
      else String.mk cur.reverse :: tokenSplit sep cs []
    else tokenSplit sep cs (c :: cur)

/-- Modelled from the spec: `find_asset_by_system.rs` is missing from the
provided sources. Per §4.1, a candidate name is normalized to a token set:
lower-cased and split on non-alphanumeric separators. -/
def normalizedTokens (name : String) : List String :=
  tokenSplit (fun c => !c.isAlphanum) (name.toList.map Char.toLower) []

/-- Modelled from the spec: known OS aliases (§4.1 names the
"darwin"/"macos" pair as the example of alias tolerance). -/
def osAliases : String → List String
  | "macos" => ["macos", "darwin"]
  | "darwin" => ["darwin", "macos"]
  | os => [os]

/-- Modelled from the spec: known architecture aliases (§4.1 names the
"x86_64"/"amd64" pair as the example of alias tolerance). -/
def archAliases : String → List String
  | "x86_64" => ["x86_64", "amd64"]
  | "amd64" => ["amd64", "x86_64"]
  | "aarch64" => ["aarch64", "arm64"]
  | "arm64" => ["arm64", "aarch64"]
  | arch => [arch]

/-- Modelled from the spec: a candidate matches the system when its
normalized token set contains an OS token compatible with `os` and an
architecture token compatible with `arch` (§4.1). -/
def matchesSystem (os arch : String) (a : Asset) : Bool :=
  let tokens := normalizedTokens a.name
  (osAliases os).any (fun t => tokens.contains t) &&
    (archAliases arch).any (fun t => tokens.contains t)

/-- Modelled from the spec: `find_asset_by_system` returns the first
candidate (in CandidateSet order) satisfying both predicates, `none`
otherwise (§4.1). -/
def find_asset_by_system (os arch : String) (assets : List Asset) : Option Asset :=
  assets.find? (matchesSystem os arch)

/-! ## TagSelector (spec §4.2)

`TaggedAsset::tag` lives in `src/github/tagged_asset.rs`, which is not among
the provided sources; only its caller `DownloadHandler::autoselect_asset` is. -/

/-- Break a character list at its first '-': the part before it, and the
part after it when one is present. -/
def breakAtDash : List Char → (List Char × Option (List Char))
  | [] => ([], none)
  | c :: cs =>
    if c = '-' then ([], some cs)
    else
      let r := breakAtDash cs
      (c :: r.1, r.2)

/-- Modelled from the spec: `tagged_asset.rs` is missing from the provided
sources. §4.2 requires exactly one deterministic insertion rule and gives the
example user name "mytool-linux.tar.gz" with tag "v1.2.0" yielding
"mytool-v1.2.0-linux.tar.gz": the tag value is inserted after the first
'-'-delimited component. -/
def TaggedAsset.tag (t : Tag) (untagged : String) : String :=
  match breakAtDash untagged.toList with
  | (head, none) => String.mk head ++ "-" ++ t.val
  | (head, some rest) => String.mk head ++ "-" ++ t.val ++ "-" ++ String.mk rest

/-- `DownloadHandler::autoselect_asset` (src/cli/handlers/download/mod.rs,
lines 174-181): reconstruct the tagged name, then `find` the first asset with
exactly that name; `None` becomes the "No asset found" error. -/
def autoselect_asset (release : Release) (untagged : String) : Except HandlerError Asset :=
  let asset_name := TaggedAsset.tag release.tag untagged
  match release.assets.find? (fun x => x.name == asset_name) with
  | some a => Except.ok a
  | none => Except.error ⟨"No asset found for " ++ untagged⟩

/-! ## ExternalCommandRunner (src/installer/command.rs) -/

/-- A finished process's exit status: the success flag and the numeric exit
code (`None` when the process was terminated without a code). -/
structure ExitStatus where
  success : Bool
  code : Option Int
deriving DecidableEq, Repr

/-- `std::process::Output` as consumed by `handle_command_output`:
the exit status and the stderr bytes decoded by `String::from_utf8`
(`Except.error ()` models invalid utf-8). -/
structure CmdOutput where
  status : ExitStatus
  stderrUtf8 : Except Unit String
deriving Repr

/-- The status part of the failure message:
`output.status.code().map(|x| x.to_string()).unwrap_or("NA")`. -/
def statusCodeText (code : Option Int) : String :=
  match code with
  | some x => toString x
  | none => "NA"

/-- The stderr part of the failure message:
`String::from_utf8(output.stderr).unwrap_or("Unknown <name> error")`. -/
def stderrText (name : String) (stderrUtf8 : Except Unit String) : String :=
  match stderrUtf8 with
  | Except.ok s => s
  | Except.error _ => "Unknown " ++ name ++ " error"

/-- The failure message format of `handle_command_output`. -/
def commandFailureMsg (name : String) (output : CmdOutput) : String :=
  "An error occurred while executing (status: " ++
    statusCodeText output.status.code ++ "):\n  " ++
    stderrText name output.stderrUtf8

/-- `handle_command_output` (src/installer/command.rs, lines 11-25):
success status yields `Ok(())`; otherwise a `Fatal` error whose message holds
the numeric exit code (or "NA") and the stderr text (or
"Unknown <name> error" when stderr is not valid utf-8). -/
def handle_command_output (name : String) (output : CmdOutput) : Except InstallError Unit :=
  if output.status.success then
    Except.ok ()
  else
    Except.error (InstallError.Fatal (commandFailureMsg name output))

/-- Modelled from the spec: `InstallErrorMapErr::map_fatal_err` lives in
`src/installer/error.rs`, which is missing from the provided sources. Per
§4.5 a spawn failure is fatal, "wrapping the underlying OS error": the
context message is combined with the OS error text. -/
def map_fatal_err (context : String) (cause : String) : InstallError :=
  InstallError.Fatal (context ++ ": " ++ cause)

/-- `exec_command` (src/installer/command.rs, lines 4-9): run the process
(`spawn` is the environment's outcome of `command.output()`: either the OS
error text, or the process's `Output`), mapping a spawn failure to a fatal
error and handing a produced `Output` to `handle_command_output`. -/
def exec_command (name : String) (spawn : Except String CmdOutput) : Except InstallError Unit :=
  match spawn with
  | Except.error e => Except.error (map_fatal_err ("An error occurred executing '" ++ name ++ "'") e)
  | Except.ok output => handle_command_output name output

/-! ## Filesystem model (for the installers)

Files are byte lists with a permission mode; the filesystem is an
association list from paths to files. -/

/-- A regular file: its contents (bytes) and permission mode bits. -/
structure FSFile where
  contents : List Nat
  perm : Nat
deriving DecidableEq, Repr

/-- A flat filesystem: paths mapped to regular files. -/
structure FS where
  files : List (String × FSFile)
deriving DecidableEq, Repr

/-- Look a path up in the filesystem. -/
def FS.read (fs : FS) (p : String) : Option FSFile :=
  (fs.files.find? (fun e => e.1 == p)).map (fun e => e.2)

/-- Permission mode that `File::create` gives a fresh file in this model
(0o644: rw-r--r--). -/
def createMode : Nat := 0o644

/-- `File::create` + writing `bs`: the path now holds exactly `bs` with the
fresh-file mode, other paths are untouched. -/
def FS.write (fs : FS) (p : String) (bs : List Nat) : FS :=
  ⟨(p, ⟨bs, createMode⟩) :: fs.files.filter (fun e => !(e.1 == p))⟩

/-- `std::fs::set_permissions` on an existing path. -/
def FS.setPerm (fs : FS) (p : String) (mode : Nat) : FS :=
  ⟨fs.files.map (fun e => if e.1 == p then (e.1, ⟨e.2.contents, mode⟩) else e)⟩

/-- `std::fs::remove_file`: the updated filesystem and whether a file was
there to delete (`false` models the deletion failing). -/
def FS.removeFile (fs : FS) (p : String) : FS × Bool :=
  (⟨fs.files.filter (fun e => !(e.1 == p))⟩, fs.files.any (fun e => e.1 == p))

/-- `Path::join` for the string paths of this model. -/
def pathJoin (dir name : String) : String := dir ++ "/" ++ name

/-! ## CompressedFileInstaller (src/installer/compressed_file.rs) -/

/-- The compile-target family selecting which `set_executable_permissions`
is compiled (`cfg(target_family = "unix")` / `cfg(target_os = "windows")`). -/
inductive TargetFamily where
  | unix
  | windows
deriving DecidableEq, Repr

/-- `set_executable_permissions` (src/installer/compressed_file.rs, lines
82-95): on unix targets set mode 0o755 on the path; on windows a no-op. -/
def set_executable_permissions : TargetFamily → FS → String → FS
  | TargetFamily.unix, fs, p => fs.setPerm p 0o755
  | TargetFamily.windows, fs, _ => fs

/-- `CompressedFileInstaller::decompress_and_move` (lines 55-79): open the
compressed file, wrap it in the decoding reader `decode`, stream-copy the
decoded bytes to `destination_dir/executable.name`, then set executable
permissions. A missing source file is the fatal "Error opening" case. -/
def decompress_and_move (decode : List Nat → List Nat) (fam : TargetFamily)
    (fs : FS) (filePath : String) (destination_dir : String) (executableName : String) :
    Except InstallError FS :=
  match fs.read filePath with
  | none => Except.error (InstallError.Fatal ("Error opening " ++ filePath))
  | some f =>
    let executable_path := pathJoin destination_dir executableName
    let fs1 := fs.write executable_path (decode f.contents)
    Except.ok (set_executable_permissions fam fs1 executable_path)

/-- `CompressedFileInstaller::gz` (lines 16-27): `decompress_and_move` with
the gzip decoding reader, which is the environment-supplied pure byte
function `gzDecode` in this model. -/
def CompressedFileInstaller.gz (gzDecode : List Nat → List Nat) (fam : TargetFamily)
    (fs : FS) (filePath destination_dir executableName : String) : Except InstallError FS :=
  decompress_and_move gzDecode fam fs filePath destination_dir executableName

/-- `CompressedFileInstaller::xz` (lines 29-40). -/
def CompressedFileInstaller.xz (xzDecode : List Nat → List Nat) (fam : TargetFamily)
    (fs : FS) (filePath destination_dir executableName : String) : Except InstallError FS :=
  decompress_and_move xzDecode fam fs filePath destination_dir executableName

/-- `CompressedFileInstaller.bz2` (lines 42-53). -/
def CompressedFileInstaller.bz2 (bz2Decode : List Nat → List Nat) (fam : TargetFamily)
    (fs : FS) (filePath destination_dir executableName : String) : Except InstallError FS :=
  decompress_and_move bz2Decode fam fs filePath destination_dir executableName

/-! ## DebianInstaller (src/installer/debian.rs) -/

/-- How the environment answers a process invocation: given the program and
its argument list, either the OS spawn-error text or the process `Output`. -/
def ProcessEnv : Type := String → List String → Except String CmdOutput

/-- `DebianInstaller::run` (src/installer/debian.rs, lines 13-24): invoke
`dpkg --install <path>` through `exec_command`; the destination and
executable parameters are ignored (`_destination`, `_executable`). -/
def DebianInstaller.run (proc : ProcessEnv) (filePath : String)
    (destination : String) (executableName : String) : Except InstallError Unit :=
  let _ := destination
  let _ := executableName
  exec_command "dpkg" (proc "dpkg" ["--install", filePath])

/-! ## Downloading (src/cli/handlers/download/mod.rs, download_asset) -/

/-- One `stream.read(&mut buffer)` outcome: an io error, or the chunk of
bytes read (the empty chunk models `Ok(0)`, end of stream). -/
def ReadResult : Type := Except Unit (List Nat)

/-- `Self::write_err` (lines 241-248). -/
def write_err (asset_name output_path : String) : HandlerError :=
  ⟨"Error saving " ++ asset_name ++ " to " ++ output_path⟩

/-- `Self::download_error` (lines 261-263). -/
def download_error (e : String) : HandlerError :=
  ⟨"Error downloading asset: " ++ e⟩

/-- The `create_file` error (lines 231-239). -/
def create_file_err (path : String) : HandlerError :=
  ⟨"Failed to create the file " ++ path⟩

/-- The body of `download_asset`'s copy loop (lines 210-222):
`while let Ok(bytes) = stream.read(&mut buffer)` — an `Err` read ends the
loop (silently), `Ok(0)` breaks, a failing `destination.write` is the typed
`write_err`, a successful write appends the chunk and continues. Returns the
loop's outcome together with the chunks written so far. -/
def downloadLoop (writeOk : List Nat → Bool) (asset_name output_path : String) :
    List ReadResult → List (List Nat) → Except HandlerError Unit × List (List Nat)
  | [], written => (Except.ok (), written)
  | r :: rest, written =>
    match r with
    | Except.error _ => (Except.ok (), written)
    | Except.ok chunk =>
      if chunk.isEmpty then (Except.ok (), written)
      else if writeOk chunk then
        downloadLoop writeOk asset_name output_path rest (written ++ [chunk])
      else (Except.error (write_err asset_name output_path), written)

/-- Environment for one `download_asset` call: the outcome of
`github::download_asset_stream` (an error text, or the stream's successive
read results), whether `File::create` succeeds on the output path, and which
chunks `destination.write` accepts. -/
structure DownloadEnv where
  stream : Except String (List ReadResult)
  createOk : Bool
  writeOk : List Nat → Bool

/-- `DownloadHandler::download_asset` (lines 197-225): open the download
stream (mapping failures through `download_error`), create the destination
file, then run the copy loop. Returns the result and the chunks written. -/
def download_asset (env : DownloadEnv) (asset_name output_path : String) :
    Except HandlerError Unit × List (List Nat) :=
  match env.stream with
  | Except.error e => (Except.error (download_error e), [])
  | Except.ok reads =>
    if env.createOk then downloadLoop env.writeOk asset_name output_path reads []
    else (Except.error (create_file_err output_path), [])

/-! ## InstallCleanup (src/installer/cleanup.rs, not among the provided
sources; its caller `maybe_install` is) -/

/-- Result of wrapping an install result in the cleanup finalizer. -/
structure CleanupOutcome where
  result : Except InstallError Unit
  fs : FS
  deleteAttempts : Nat
  cleanupWarning : Option String
deriving Repr

/-- Modelled from the spec: `InstallCleanup::cleanup` lives in
`src/installer/cleanup.rs`, which is missing from the provided sources. Per
§4.6 it unconditionally attempts to delete the downloaded artifact after the
install attempt, and a deletion failure is reported as a secondary warning,
never replacing the primary install result. -/
def InstallCleanup.cleanup (res : Except InstallError Unit) (fs : FS) (path : String) :
    CleanupOutcome :=
  let removed := fs.removeFile path
  { result := res
    fs := removed.1
    deleteAttempts := 1
    cleanupWarning := if removed.2 then none else some ("Unable to delete " ++ path) }

/-! ## DownloadHandler (src/cli/handlers/download/mod.rs) -/

/-- `DownloadMode` (lines 31-35). -/
inductive DownloadMode where
  | Interactive
  | Selection (s : String)
  | Automatic
deriving DecidableEq, Repr

/-- `DownloadMode::new` (lines 38-44). -/
def DownloadMode.new (select : Option String) (automatic : Bool) : DownloadMode :=
  match select, automatic with
  | some x, _ => DownloadMode.Selection x
  | none, true => DownloadMode.Automatic
  | none, false => DownloadMode.Interactive

/-- `Install` (lines 47-50). -/
inductive Install where
  | No
  | Yes (executableName : String)
deriving DecidableEq, Repr

/-- `Install::new` (lines 53-60): a present install flag takes the given
executable name, defaulting to the repository's short name. -/
def Install.new (install : Option (Option String)) (repository : Repository) : Install :=
  match install with
  | some executable_name => Install.Yes (executable_name.getD repository.repo)
  | none => Install.No

/-- `Install::as_bool` (lines 62-67). -/
def Install.as_bool : Install → Bool
  | Install.No => false
  | Install.Yes _ => true

/-- The `DownloadHandler` struct (lines 22-29). -/
structure DownloadHandler where
  repository : Repository
  mode : DownloadMode
  tag : Option Tag
  output : Option String
  install : Bool
  install_new : Install

/-- `DownloadHandler::new` (lines 71-88). -/
def DownloadHandler.new (repository : Repository) (select : Option String)
    (automatic : Bool) (tag : Option String) (output : Option String)
    (install : Option (Option String)) : DownloadHandler :=
  let install_new := Install.new install repository
  { repository := repository
    mode := DownloadMode.new select automatic
    tag := tag.map Tag.mk
    output := output
    install := install_new.as_bool
    install_new := install_new }

/-- `choose_output_path_from` (lines 266-288): installing downloads to a
temporary file; otherwise an output path is used directly (joined with the
asset name when it is an existing directory), defaulting to the asset name. -/
def choose_output_path_from (output : Option String) (install : Bool)
    (asset_name : String) (is_dir : String → Bool) (tempFile : String) : String :=
  if install then tempFile
  else
    match output with
    | some path => if is_dir path then pathJoin path asset_name else path
    | none => asset_name

/-- `DownloadHandler::dir_or_error` (lines 250-259). -/
def dir_or_error (is_dir : String → Bool) (path : String) : Except HandlerError String :=
  if is_dir path then Except.ok path
  else Except.error ⟨path ++ " is not a directory"⟩

/-- `DownloadHandler::output_dir_or_cwd` (lines 163-172): a given output
must be an existing directory; with no output, the current directory
(`cwd` is the environment's `std::env::current_dir()` outcome). -/
def output_dir_or_cwd (output : Option String) (is_dir : String → Bool)
    (cwd : Except String String) : Except HandlerError String :=
  match output with
  | some x => dir_or_error is_dir x
  | none =>
    match cwd with
    | Except.ok d => Except.ok d
    | Except.error e => Except.error ⟨"Error retrieving current directory: " ++ e⟩

/-- Display form of a repository (`{owner}/{repo}`). -/
def Repository.display (r : Repository) : String := r.owner ++ "/" ++ r.repo

/-- Placeholder for the crate version baked in by `env!("CARGO_PKG_VERSION")`. -/
def draVersion : String := "CARGO_PKG_VERSION"

/-- `DownloadHandler::automatic_download_error` (lines 114-138). The
percent-encoding applied to the issue title/body (`urlencoding::encode`) is
display plumbing and is modelled as the identity on strings. -/
def automatic_download_error (repository : Repository) (release : Tag)
    (os arch : String) : HandlerError :=
  let title := "Error: automatic download of asset"
  let body := "## dra version\n" ++ draVersion ++ "\n## Bug report\nRepository: " ++
    repository.display ++ "\nRelease: " ++ release.val ++ "\nOS: " ++ os ++
    "\nARCH: " ++ arch
  let issue_url := "https://github.com/devmatteini/dra/issues/new?title=" ++
    title ++ "&body=" ++ body
  ⟨"Cannot find asset that matches your system " ++ os ++ " " ++ arch ++
    "\nIf you think this is a bug, please report the issue: " ++ issue_url⟩

/-- Observable pipeline events: the start of `download_asset` (progress bar
shown, stream opened) and the start of an installer invocation (after the
destination-directory check). -/
inductive Ev where
  | download
  | install
deriving DecidableEq, Repr

/-- Environment for one `DownloadHandler::run` call: the release fetch
outcome, the interactive selection outcome, the host os/arch
(`std::env::consts`), the filesystem's directory test, the current
directory, the fresh temporary path (`temp_file()`), the download stream
environment, the outcome of `installer::install` as a function of
(asset name, file path, destination dir, executable name), and the
filesystem seen by cleanup. -/
structure RunEnv where
  releaseResult : Except HandlerError Release
  askResult : Except HandlerError Asset
  os : String
  arch : String
  is_dir : String → Bool
  cwd : Except String String
  tempFile : String
  dl : DownloadEnv
  installerResult : String → String → String → String → Except InstallError Unit
  fs : FS

/-- `DownloadHandler::select_asset` (lines 100-112): interactive mode asks
the user, selection mode reconstructs the tagged name, automatic mode runs
`find_asset_by_system` on the host os/arch. -/
def select_asset (h : DownloadHandler) (env : RunEnv) (release : Release) :
    Except HandlerError Asset :=
  match h.mode with
  | DownloadMode.Interactive => env.askResult
  | DownloadMode.Selection untagged => autoselect_asset release untagged
  | DownloadMode.Automatic =>
    match find_asset_by_system env.os env.arch release.assets with
    | some a => Except.ok a
    | none => Except.error (automatic_download_error h.repository release.tag env.os env.arch)

/-- Outcome of a pipeline step: the handler result, the events that
happened, and how many artifact deletions were attempted. -/
structure StepOut where
  result : Except HandlerError Unit
  events : List Ev
  deleteAttempts : Nat
deriving Repr

/-- `DownloadHandler::maybe_install` (lines 140-161): nothing to do unless
installing; otherwise resolve the destination directory (`output_dir_or_cwd`,
which fails on a non-directory output before any installer runs), then run
`installer::install(..).cleanup(path)`, mapping an install error to its
display text. -/
def maybe_install (h : DownloadHandler) (env : RunEnv) (asset_name path : String) :
    StepOut :=
  match h.install_new with
  | Install.No => ⟨Except.ok (), [], 0⟩
  | Install.Yes executable_name =>
    match output_dir_or_cwd h.output env.is_dir env.cwd with
    | Except.error e => ⟨Except.error e, [], 0⟩
    | Except.ok destination_dir =>
      let c := InstallCleanup.cleanup
        (env.installerResult asset_name path destination_dir executable_name)
        env.fs path
      ⟨match c.result with
        | Except.ok _ => Except.ok ()
        | Except.error x => Except.error ⟨x.display⟩,
       [Ev.install], c.deleteAttempts⟩

/-- `DownloadHandler::run` (lines 90-98): fetch the release, select the
asset, choose the output path, download, then maybe install. -/
def DownloadHandler.run (h : DownloadHandler) (env : RunEnv) : StepOut :=
  match env.releaseResult with
  | Except.error e => ⟨Except.error e, [], 0⟩
  | Except.ok release =>
    match select_asset h env release with
    | Except.error e => ⟨Except.error e, [], 0⟩
    | Except.ok selected_asset =>
      let output_path := choose_output_path_from h.output h.install
        selected_asset.name env.is_dir env.tempFile
      match (download_asset env.dl selected_asset.name output_path).1 with
      | Except.error e => ⟨Except.error e, [Ev.download], 0⟩
      | Except.ok _ =>
        let m := maybe_install h env selected_asset.name output_path
        ⟨m.result, Ev.download :: m.events, m.deleteAttempts⟩

/-- `sub` occurs contiguously inside `s`. -/
def containsSubstr (s sub : String) : Prop :=
  ∃ x y, s = x ++ sub ++ y

/-! ## Concrete fixtures for closed statements -/

/-- A handler asked to install with an explicit output "/bad". -/
def C2handler : DownloadHandler :=
  { repository := ⟨"o", "r"⟩
    mode := DownloadMode.Interactive
    tag := none
    output := some "/bad"
    install := true
    install_new := Install.Yes "tool" }

/-- A run environment where "/bad" is not a directory, the release fetch,
interactive selection and download all succeed, and the installer would
succeed. -/
def C2env : RunEnv :=
  { releaseResult := Except.ok ⟨⟨"v1"⟩, [Asset.mk "a.gz" "u"]⟩
    askResult := Except.ok (Asset.mk "a.gz" "u")
    os := "linux"
    arch := "x86_64"
    is_dir := fun _ => false
    cwd := Except.ok "/cwd"
    tempFile := "/tmp/dra-123"
    dl := ⟨Except.ok [], true, fun _ => true⟩
    installerResult := fun _ _ _ _ => Except.ok ()
    fs := ⟨[]⟩ }

/-- A handler asked to install into the current directory. -/
def C7handler : DownloadHandler :=
  { repository := ⟨"o", "r"⟩
    mode := DownloadMode.Automatic
    tag := none
    output := none
    install := true
    install_new := Install.Yes "tool" }

/-- A run environment whose installer fails with a fatal "boom" error and
whose filesystem holds the downloaded artifact at "/p". -/
def C7env : RunEnv :=
  { releaseResult := Except.ok ⟨⟨"v1"⟩, [Asset.mk "a.gz" "u"]⟩
    askResult := Except.error ⟨"no ask"⟩
    os := "linux"
    arch := "x86_64"
    is_dir := fun _ => false
    cwd := Except.ok "/cwd"
    tempFile := "/tmp/dra-123"
    dl := ⟨Except.ok [], true, fun _ => true⟩
    installerResult := fun _ _ _ _ => Except.error (InstallError.Fatal "boom")
    fs := ⟨[("/p", ⟨[1], 0o644⟩)]⟩ }

/-! ## Helper lemmas -/

/-- A successful `List.find?` returns the first satisfying element: the list
splits around it with every earlier element failing the predicate. -/
theorem find_first_split {α : Type} (p : α → Bool) (l : List α) (a : α)
    (h : l.find? p = some a) :
    p a = true ∧ ∃ pre post, l = pre ++ a :: post ∧ ∀ b ∈ pre, p b = false := by
  induction l with
  | nil => simp [List.find?] at h
  | cons x xs ih =>
    by_cases hx : p x = true
    · rw [List.find?_cons_of_pos xs hx] at h
      obtain rfl : x = a := by injection h
      exact ⟨hx, [], xs, rfl, fun b hb => absurd hb (List.not_mem_nil b)⟩
    · rw [List.find?_cons_of_neg xs hx] at h
      obtain ⟨hpa, pre, post, heq, hpre⟩ := ih h
      refine ⟨hpa, x :: pre, post, by rw [heq, List.cons_append], ?_⟩
      intro b hb
      rcases List.mem_cons.mp hb with hb | hb
      · subst hb; simpa using hx
      · exact hpre b hb

/-- Conversely, `List.find?` returns the head of the suffix whenever every
element before it fails the predicate. -/
theorem find_at_first_match {α : Type} (p : α → Bool) (pre : List α) (a : α)
    (post : List α) (hpa : p a = true) (hpre : ∀ b ∈ pre, p b = false) :
    (pre ++ a :: post).find? p = some a := by
  induction pre with
  | nil => simpa using List.find?_cons_of_pos post hpa
  | cons x xs ih =>
    have hx : p x = false := hpre x (List.mem_cons_self x xs)
    rw [List.cons_append, List.find?_cons_of_neg _ (by simp [hx])]
    exact ih (fun b hb => hpre b (List.mem_cons_of_mem x hb))

/-! ## Claims -/

/-- C1: automatic asset selection returns the first candidate, in input
order, whose normalized name tokens contain an OS token compatible with the
descriptor's os and an architecture token compatible with its arch (alias
tolerant), and returns none exactly when no candidate satisfies both
predicates. -/
theorem C1_asset_matcher_first_match (os arch : String) (assets : List Asset) :
    (find_asset_by_system os arch assets = none ↔
      ∀ a ∈ assets, matchesSystem os arch a = false) ∧
    (∀ a, find_asset_by_system os arch assets = some a →
      matchesSystem os arch a = true ∧
      ∃ pre post, assets = pre ++ a :: post ∧
        ∀ b ∈ pre, matchesSystem os arch b = false) ∧
    (∀ pre a post, assets = pre ++ a :: post →
      matchesSystem os arch a = true →
      (∀ b ∈ pre, matchesSystem os arch b = false) →
      find_asset_by_system os arch assets = some a) := by
  refine ⟨?_, ?_, ?_⟩
  · unfold find_asset_by_system
    rw [List.find?_eq_none]
    constructor
    · intro hall a ha
      simpa using hall a ha
    · intro hall a ha
      simp [hall a ha]
  · intro a h
    exact find_first_split (matchesSystem os arch) assets a h
  · intro pre a post heq hpa hpre
    unfold find_asset_by_system
    rw [heq]
    exact find_at_first_match (matchesSystem os arch) pre a post hpa hpre

/-- Witness for C1, on the spec's own example: descriptor (linux, x86_64)
against ["tool-linux-amd64.tar.gz", "tool-darwin-amd64.tar.gz"] selects the
first entry (the "amd64" alias standing in for "x86_64"). -/
theorem C1_asset_matcher_first_match_witness :
    matchesSystem "linux" "x86_64" (Asset.mk "tool-linux-amd64.tar.gz" "u1") = true ∧
    ∃ pre post,
      [Asset.mk "tool-linux-amd64.tar.gz" "u1", Asset.mk "tool-darwin-amd64.tar.gz" "u2"] =
        pre ++ Asset.mk "tool-linux-amd64.tar.gz" "u1" :: post ∧
      ∀ b ∈ pre, matchesSystem "linux" "x86_64" b = false :=
  (C1_asset_matcher_first_match "linux" "x86_64"
    [Asset.mk "tool-linux-amd64.tar.gz" "u1", Asset.mk "tool-darwin-amd64.tar.gz" "u2"]).2.1
    (Asset.mk "tool-linux-amd64.tar.gz" "u1") (by decide)

/-- C3 counterexample: a release holding two assets that both carry the
reconstructed tagged name "tool-v1-linux.gz". The claim says multiple
matches are reported as "asset not found"; `autoselect_asset` instead
resolves them to the first matching asset. -/
theorem C3_multiple_matches_cex :
    autoselect_asset
      ⟨⟨"v1"⟩, [Asset.mk "tool-v1-linux.gz" "u1", Asset.mk "tool-v1-linux.gz" "u2"]⟩
      "tool-linux.gz" = Except.ok (Asset.mk "tool-v1-linux.gz" "u1") := by rfl

/-- C3 (amended): the tagged-name selection performs an exact-match lookup
of the reconstructed tagged name; zero matches are reported as "asset not
found", while one or more matches resolve to the first matching asset in
CandidateSet order. -/
theorem C3_tagged_lookup_exact_match (release : Release) (untagged : String) :
    ((∀ a ∈ release.assets, a.name ≠ TaggedAsset.tag release.tag untagged) →
      autoselect_asset release untagged =
        Except.error ⟨"No asset found for " ++ untagged⟩) ∧
    (∀ pre a post, release.assets = pre ++ a :: post →
      a.name = TaggedAsset.tag release.tag untagged →
      (∀ b ∈ pre, b.name ≠ TaggedAsset.tag release.tag untagged) →
      autoselect_asset release untagged = Except.ok a) := by
  constructor
  · intro hall
    have hnone : release.assets.find?
        (fun x => x.name == TaggedAsset.tag release.tag untagged) = none := by
      rw [List.find?_eq_none]
      intro x hx
      simp only [beq_iff_eq]
      exact hall x hx
    simp [autoselect_asset, hnone]
  · intro pre a post heq hname hpre
    have hfind : release.assets.find?
        (fun x => x.name == TaggedAsset.tag release.tag untagged) = some a := by
      rw [heq]
      refine find_at_first_match _ pre a post ?_ ?_
      · simpa using hname
      · intro b hb
        simpa using hpre b hb
    simp [autoselect_asset, hfind]

/-- Witness for the amended C3: the second asset is the only exact match of
the reconstructed name and is returned. -/
theorem C3_tagged_lookup_exact_match_witness :
    autoselect_asset
      ⟨⟨"v1"⟩, [Asset.mk "other.gz" "u0", Asset.mk "tool-v1-linux.gz" "u1"]⟩
      "tool-linux.gz" = Except.ok (Asset.mk "tool-v1-linux.gz" "u1") :=
  (C3_tagged_lookup_exact_match
    ⟨⟨"v1"⟩, [Asset.mk "other.gz" "u0", Asset.mk "tool-v1-linux.gz" "u1"]⟩
    "tool-linux.gz").2
    [Asset.mk "other.gz" "u0"] (Asset.mk "tool-v1-linux.gz" "u1") [] rfl (by rfl) (by decide)

/-- C9: tagged-name resolution is deterministic — identical inputs yield
identical output strings, and autoselection over the same CandidateSet
yields the same asset both times. -/
theorem C9_tag_selector_deterministic (t1 t2 : Tag) (n1 n2 : String)
    (r1 r2 : Release) (ht : t1 = t2) (hn : n1 = n2) (hr : r1 = r2) :
    TaggedAsset.tag t1 n1 = TaggedAsset.tag t2 n2 ∧
    autoselect_asset r1 n1 = autoselect_asset r2 n2 := by
  subst ht; subst hn; subst hr
  exact ⟨rfl, rfl⟩

/-- Witness for C9, at the spec's example tag and name. -/
theorem C9_tag_selector_deterministic_witness :
    TaggedAsset.tag ⟨"v1.2.0"⟩ "mytool-linux.tar.gz" =
      TaggedAsset.tag ⟨"v1.2.0"⟩ "mytool-linux.tar.gz" ∧
    autoselect_asset ⟨⟨"v1.2.0"⟩, [Asset.mk "mytool-v1.2.0-linux.tar.gz" "u"]⟩
        "mytool-linux.tar.gz" =
      autoselect_asset ⟨⟨"v1.2.0"⟩, [Asset.mk "mytool-v1.2.0-linux.tar.gz" "u"]⟩
        "mytool-linux.tar.gz" :=
  C9_tag_selector_deterministic ⟨"v1.2.0"⟩ ⟨"v1.2.0"⟩ "mytool-linux.tar.gz"
    "mytool-linux.tar.gz"
    ⟨⟨"v1.2.0"⟩, [Asset.mk "mytool-v1.2.0-linux.tar.gz" "u"]⟩
    ⟨⟨"v1.2.0"⟩, [Asset.mk "mytool-v1.2.0-linux.tar.gz" "u"]⟩ rfl rfl rfl

/-- C6: the command runner succeeds exactly when the process exits with a
success status; on a non-success exit it returns a fatal error whose message
contains the numeric exit code (or "NA" without one) and the captured stderr
text (or the "Unknown <name> error" fallback when stderr is not valid text);
a spawn failure is fatal as well. -/
theorem C6_command_exit_classification (name : String)
    (spawn : Except String CmdOutput) :
    (exec_command name spawn = Except.ok () ↔
      ∃ out, spawn = Except.ok out ∧ out.status.success = true) ∧
    (∀ out, spawn = Except.ok out → out.status.success = false →
      exec_command name spawn =
        Except.error (InstallError.Fatal (commandFailureMsg name out)) ∧
      containsSubstr (commandFailureMsg name out) (statusCodeText out.status.code) ∧
      containsSubstr (commandFailureMsg name out) (stderrText name out.stderrUtf8)) ∧
    (∀ e, spawn = Except.error e →
      exec_command name spawn = Except.error
        (map_fatal_err ("An error occurred executing '" ++ name ++ "'") e)) := by
  refine ⟨?_, ?_, ?_⟩
  · constructor
    · intro h
      cases spawn with
      | error e => simp [exec_command] at h
      | ok out =>
        refine ⟨out, rfl, ?_⟩
        by_cases hs : out.status.success = true
        · exact hs
        · simp [exec_command, handle_command_output, hs] at h
    · rintro ⟨out, rfl, hs⟩
      simp [exec_command, handle_command_output, hs]
  · rintro out rfl hs
    refine ⟨by simp [exec_command, handle_command_output, hs], ?_, ?_⟩
    · exact ⟨"An error occurred while executing (status: ",
        "):\n  " ++ stderrText name out.stderrUtf8,
        String.append_assoc _ _ _⟩
    · refine ⟨"An error occurred while executing (status: " ++
        statusCodeText out.status.code ++ "):\n  ", "", ?_⟩
      rw [String.append_empty]
      rfl
  · rintro e rfl
    simp [exec_command]

/-- Witness for C6: `dpkg` exiting with status 1 and stderr "boom" yields
the fatal error with both pieces embedded in the message. -/
theorem C6_command_exit_classification_witness :
    exec_command "dpkg" (Except.ok ⟨⟨false, some 1⟩, Except.ok "boom"⟩) =
      Except.error (InstallError.Fatal
        (commandFailureMsg "dpkg" ⟨⟨false, some 1⟩, Except.ok "boom"⟩)) ∧
    containsSubstr (commandFailureMsg "dpkg" ⟨⟨false, some 1⟩, Except.ok "boom"⟩)
      (statusCodeText (some 1)) ∧
    containsSubstr (commandFailureMsg "dpkg" ⟨⟨false, some 1⟩, Except.ok "boom"⟩)
      (stderrText "dpkg" (Except.ok "boom")) :=
  (C6_command_exit_classification "dpkg"
    (Except.ok ⟨⟨false, some 1⟩, Except.ok "boom"⟩)).2.1
    ⟨⟨false, some 1⟩, Except.ok "boom"⟩ rfl rfl

/-- Reading back a freshly written path yields the written bytes with the
fresh-file mode. -/
theorem FS.read_write_self (fs : FS) (p : String) (bs : List Nat) :
    (fs.write p bs).read p = some ⟨bs, createMode⟩ := by
  simp [FS.write, FS.read, List.find?]

/-- Reading back a freshly written path after a permission change yields the
written bytes with the new mode. -/
theorem FS.read_setPerm_write (fs : FS) (p : String) (bs : List Nat) (mode : Nat) :
    ((fs.write p bs).setPerm p mode).read p = some ⟨bs, mode⟩ := by
  simp [FS.write, FS.setPerm, FS.read, List.find?]

/-- C5: for a single-stream compressed input whose decoder inverts the
compression, each of the Gzip/Xz/Bzip2 installers writes exactly the
original uncompressed bytes to `destination/executable.name`, then sets mode
0o755 on unix targets and leaves the fresh-file mode untouched on windows. -/
theorem C5_compressed_round_trip (decode encode : List Nat → List Nat)
    (fam : TargetFamily) (fs : FS) (filePath destDir exeName : String)
    (original : List Nat) (pm : Nat)
    (hinv : decode (encode original) = original)
    (hread : fs.read filePath = some ⟨encode original, pm⟩) :
    ∃ fs1,
      CompressedFileInstaller.gz decode fam fs filePath destDir exeName =
        Except.ok fs1 ∧
      CompressedFileInstaller.xz decode fam fs filePath destDir exeName =
        Except.ok fs1 ∧
      CompressedFileInstaller.bz2 decode fam fs filePath destDir exeName =
        Except.ok fs1 ∧
      fs1.read (pathJoin destDir exeName) =
        some ⟨original,
          if fam = TargetFamily.unix then 0o755 else createMode⟩ := by
  refine ⟨set_executable_permissions fam
      (fs.write (pathJoin destDir exeName) (decode (encode original)))
      (pathJoin destDir exeName), ?_, ?_, ?_, ?_⟩
  · simp [CompressedFileInstaller.gz, decompress_and_move, hread]
  · simp [CompressedFileInstaller.xz, decompress_and_move, hread]
  · simp [CompressedFileInstaller.bz2, decompress_and_move, hread]
  · cases fam with
    | unix =>
      simp only [set_executable_permissions, if_pos rfl]
      rw [FS.read_setPerm_write, hinv]
      simp
    | windows =>
      simp only [set_executable_permissions]
      rw [FS.read_write_self, hinv]
      rfl

/-- Witness for C5: a concrete "compressed" fixture (list reversal as the
codec) installed on a unix target lands byte-exactly with mode 0o755. -/
theorem C5_compressed_round_trip_witness :
    ∃ fs1,
      CompressedFileInstaller.gz List.reverse TargetFamily.unix
        ⟨[("/tmp/a.gz", ⟨[3, 2, 1], 0o644⟩)]⟩ "/tmp/a.gz" "/usr/local/bin" "tool" =
        Except.ok fs1 ∧
      CompressedFileInstaller.xz List.reverse TargetFamily.unix
        ⟨[("/tmp/a.gz", ⟨[3, 2, 1], 0o644⟩)]⟩ "/tmp/a.gz" "/usr/local/bin" "tool" =
        Except.ok fs1 ∧
      CompressedFileInstaller.bz2 List.reverse TargetFamily.unix
        ⟨[("/tmp/a.gz", ⟨[3, 2, 1], 0o644⟩)]⟩ "/tmp/a.gz" "/usr/local/bin" "tool" =
        Except.ok fs1 ∧
      fs1.read (pathJoin "/usr/local/bin" "tool") =
        some ⟨[1, 2, 3],
          if TargetFamily.unix = TargetFamily.unix then 0o755 else createMode⟩ :=
  C5_compressed_round_trip List.reverse List.reverse TargetFamily.unix
    ⟨[("/tmp/a.gz", ⟨[3, 2, 1], 0o644⟩)]⟩ "/tmp/a.gz" "/usr/local/bin" "tool"
    [1, 2, 3] 0o644 (by decide) (by decide)

/-- C8: the Debian installer does not decompress the file but invokes the
platform package manager (`dpkg --install <path>`); the install outcome is
determined entirely by that external tool's exit status, and the destination
directory and executable name have no effect. -/
theorem C8_debian_uses_package_manager (proc : ProcessEnv)
    (filePath d1 d2 e1 e2 : String) :
    DebianInstaller.run proc filePath d1 e1 = DebianInstaller.run proc filePath d2 e2 ∧
    DebianInstaller.run proc filePath d1 e1 =
      exec_command "dpkg" (proc "dpkg" ["--install", filePath]) ∧
    (∀ out, proc "dpkg" ["--install", filePath] = Except.ok out →
      (DebianInstaller.run proc filePath d1 e1 = Except.ok () ↔
        out.status.success = true)) := by
  refine ⟨rfl, rfl, ?_⟩
  intro out hout
  rw [DebianInstaller.run]
  rw [hout]
  constructor
  · intro h
    by_cases hs : out.status.success = true
    · exact hs
    · simp only [Bool.not_eq_true] at hs
      simp [exec_command, handle_command_output, hs] at h
  · intro hs
    simp [exec_command, handle_command_output, hs]

/-- Witness for C8: dpkg reporting a clean exit makes the install succeed. -/
theorem C8_debian_uses_package_manager_witness :
    DebianInstaller.run (fun _ _ => Except.ok ⟨⟨true, some 0⟩, Except.ok ""⟩)
        "/tmp/x.deb" "/d1" "e1" = Except.ok () ↔
      (CmdOutput.mk ⟨true, some 0⟩ (Except.ok "")).status.success = true :=
  (C8_debian_uses_package_manager (fun _ _ => Except.ok ⟨⟨true, some 0⟩, Except.ok ""⟩)
    "/tmp/x.deb" "/d1" "/d2" "e1" "e2").2.2
    (CmdOutput.mk ⟨true, some 0⟩ (Except.ok "")) rfl

/-- C7: when installing, one artifact deletion is attempted after the
install attempt whether it succeeded or failed, and the install step's own
result is returned untouched — the cleanup step never replaces it. -/
theorem C7_cleanup_once_never_masks (h : DownloadHandler) (env : RunEnv)
    (asset_name path exe destDir : String)
    (hinst : h.install_new = Install.Yes exe)
    (hdir : output_dir_or_cwd h.output env.is_dir env.cwd = Except.ok destDir) :
    (maybe_install h env asset_name path).deleteAttempts = 1 ∧
    (env.installerResult asset_name path destDir exe = Except.ok () →
      (maybe_install h env asset_name path).result = Except.ok ()) ∧
    (∀ ie, env.installerResult asset_name path destDir exe = Except.error ie →
      (maybe_install h env asset_name path).result = Except.error ⟨ie.display⟩) := by
  refine ⟨?_, ?_, ?_⟩
  · simp [maybe_install, hinst, hdir, InstallCleanup.cleanup]
  · intro hok
    simp [maybe_install, hinst, hdir, InstallCleanup.cleanup, hok]
  · intro ie hie
    simp [maybe_install, hinst, hdir, InstallCleanup.cleanup, hie]

/-- Witness for C7: a failing installer still triggers exactly one deletion
attempt and its "boom" error is what the handler reports. -/
theorem C7_cleanup_once_never_masks_witness :
    (maybe_install C7handler C7env "a.gz" "/p").deleteAttempts = 1 ∧
    (maybe_install C7handler C7env "a.gz" "/p").result =
      Except.error ⟨(InstallError.Fatal "boom").display⟩ :=
  ⟨(C7_cleanup_once_never_masks C7handler C7env "a.gz" "/p" "tool" "/cwd" rfl rfl).1,
   (C7_cleanup_once_never_masks C7handler C7env "a.gz" "/p" "tool" "/cwd" rfl rfl).2.2
     (InstallError.Fatal "boom") rfl⟩

/-- C4 counterexample: a download stream whose only read fails with an io
error makes `download_asset` return success with nothing surfaced — the
read error is silently discarded, where the claim demands a typed error. -/
theorem C4_read_error_swallowed_cex :
    download_asset ⟨Except.ok [Except.error ()], true, fun _ => true⟩ "a.gz" "/out" =
      (Except.ok (), []) := rfl

/-- C4 (amended): stream-open failures, file-creation failures and write
failures are surfaced synchronously as typed errors, but a mid-stream read
error silently ends the copy loop as if the stream were exhausted, returning
success with the bytes written so far. -/
theorem C4_error_propagation (env : DownloadEnv) (asset_name output_path : String) :
    (∀ e, env.stream = Except.error e →
      download_asset env asset_name output_path =
        (Except.error (download_error e), [])) ∧
    (∀ reads, env.stream = Except.ok reads → env.createOk = false →
      download_asset env asset_name output_path =
        (Except.error (create_file_err output_path), [])) ∧
    (∀ writeOk chunk rest written, chunk ≠ [] → writeOk chunk = false →
      downloadLoop writeOk asset_name output_path (Except.ok chunk :: rest) written =
        (Except.error (write_err asset_name output_path), written)) ∧
    (∀ writeOk rest written (e : Unit),
      downloadLoop writeOk asset_name output_path (Except.error e :: rest) written =
        (Except.ok (), written)) := by
  refine ⟨?_, ?_, ?_, ?_⟩
  · intro e he
    simp [download_asset, he]
  · intro reads hr hc
    simp [download_asset, hr, hc]
  · intro writeOk chunk rest written hne hw
    cases chunk with
    | nil => exact absurd rfl hne
    | cons c cs => simp [downloadLoop, hw]
  · intro writeOk rest written e
    simp [downloadLoop]

/-- Witness for C4: a rejected write chunk is a typed error, and a stream
read error after one successful chunk yields success with only that chunk. -/
theorem C4_error_propagation_witness :
    downloadLoop (fun _ => false) "a.gz" "/out" [Except.ok [7]] [] =
      (Except.error (write_err "a.gz" "/out"), []) ∧
    downloadLoop (fun _ => true) "a.gz" "/out" [Except.error ()] [[1]] =
      (Except.ok (), [[1]]) :=
  ⟨(C4_error_propagation ⟨Except.ok [], true, fun _ => true⟩ "a.gz" "/out").2.2.1
     (fun _ => false) [7] [] [] (by decide) rfl,
   (C4_error_propagation ⟨Except.ok [], true, fun _ => true⟩ "a.gz" "/out").2.2.2
     (fun _ => true) [] [[1]] ()⟩

/-- C2 counterexample: with output "/bad" not a directory and installation
requested, the run fails with "/bad is not a directory" — but only after the
download happened: the claim that the failure precedes any download attempt
is refuted by `Ev.download` sitting in the trace. -/
theorem C2_download_precedes_dir_check_cex :
    (C2handler.run C2env).result = Except.error ⟨"/bad is not a directory"⟩ ∧
    Ev.download ∈ (C2handler.run C2env).events := by
  constructor
  · rfl
  · decide

/-- C2 (amended): when the user-supplied destination is not an existing
directory and installation is requested, the run fails fatally with the
"<path> is not a directory" message before any extraction or installation is
attempted — but after the download, which has already completed. -/
theorem C2_not_a_directory_fatal (h : DownloadHandler) (env : RunEnv)
    (p exe : String) (rel : Release) (a : Asset)
    (hout : h.output = some p)
    (hinst : h.install_new = Install.Yes exe)
    (hdir : env.is_dir p = false)
    (hrel : env.releaseResult = Except.ok rel)
    (hsel : select_asset h env rel = Except.ok a)
    (hdl : (download_asset env.dl a.name
      (choose_output_path_from h.output h.install a.name env.is_dir env.tempFile)).1 =
        Except.ok ()) :
    (h.run env).result = Except.error ⟨p ++ " is not a directory"⟩ ∧
    (h.run env).events = [Ev.download] ∧
    Ev.install ∉ (h.run env).events := by
  have hmi : maybe_install h env a.name
      (choose_output_path_from h.output h.install a.name env.is_dir env.tempFile) =
      ⟨Except.error ⟨p ++ " is not a directory"⟩, [], 0⟩ := by
    simp [maybe_install, hinst, output_dir_or_cwd, hout, dir_or_error, hdir]
  have hrun : h.run env = ⟨Except.error ⟨p ++ " is not a directory"⟩, [Ev.download], 0⟩ := by
    simp [DownloadHandler.run, hrel, hsel, hdl, hmi]
  rw [hrun]
  refine ⟨rfl, rfl, ?_⟩
  simp

/-- Witness for the amended C2, on the concrete "/bad" fixture. -/
theorem C2_not_a_directory_fatal_witness :
    (C2handler.run C2env).result = Except.error ⟨"/bad is not a directory"⟩ ∧
    (C2handler.run C2env).events = [Ev.download] ∧
    Ev.install ∉ (C2handler.run C2env).events :=
  C2_not_a_directory_fatal C2handler C2env "/bad" "tool"
    ⟨⟨"v1"⟩, [Asset.mk "a.gz" "u"]⟩ (Asset.mk "a.gz" "u") rfl rfl rfl rfl rfl rfl

/-- C10: installing downloads to the fresh temporary path no matter what
output option was given (the output option only feeds the install
destination); without installing, the download path is the output path
itself — joined with the asset name when the output is an existing
directory — and defaults to the asset name. -/
theorem C10_output_path_selection (output : Option String) (install : Bool)
    (asset_name : String) (is_dir : String → Bool) (tempFile : String)
    (cwd : Except String String) :
    (install = true →
      choose_output_path_from output install asset_name is_dir tempFile = tempFile) ∧
    (install = false → output = none →
      choose_output_path_from output install asset_name is_dir tempFile = asset_name) ∧
    (∀ p, install = false → output = some p → is_dir p = true →
      choose_output_path_from output install asset_name is_dir tempFile =
        pathJoin p asset_name) ∧
    (∀ p, install = false → output = some p → is_dir p = false →
      choose_output_path_from output install asset_name is_dir tempFile = p) ∧
    (∀ p, output = some p →
      output_dir_or_cwd output is_dir cwd = dir_or_error is_dir p) ∧
    (∀ d, output = none → cwd = Except.ok d →
      output_dir_or_cwd output is_dir cwd = Except.ok d) := by
  refine ⟨?_, ?_, ?_, ?_, ?_, ?_⟩
  · intro hi
    simp [choose_output_path_from, hi]
  · intro hi ho
    simp [choose_output_path_from, hi, ho]
  · intro p hi ho hd
    simp [choose_output_path_from, hi, ho, hd]
  · intro p hi ho hd
    simp [choose_output_path_from, hi, ho, hd]
  · intro p ho
    simp [output_dir_or_cwd, ho]
  · intro d ho hc
    simp [output_dir_or_cwd, ho, hc]

/-- Witness for C10: with an output directory given, installing still
downloads to the temporary path, while plain downloads join the directory
with the asset name, and no output defaults to the asset name. -/
theorem C10_output_path_selection_witness :
    choose_output_path_from (some "/out") true "a.gz" (fun _ => true) "/tmp/dra-1" =
      "/tmp/dra-1" ∧
    choose_output_path_from (some "/out") false "a.gz" (fun _ => true) "/tmp/dra-1" =
      pathJoin "/out" "a.gz" ∧
    choose_output_path_from none false "a.gz" (fun _ => true) "/tmp/dra-1" = "a.gz" :=
  ⟨(C10_output_path_selection (some "/out") true "a.gz" (fun _ => true) "/tmp/dra-1"
      (Except.ok "/cwd")).1 rfl,
   (C10_output_path_selection (some "/out") false "a.gz" (fun _ => true) "/tmp/dra-1"
      (Except.ok "/cwd")).2.2.1 "/out" rfl rfl rfl,
   (C10_output_path_selection none false "a.gz" (fun _ => true) "/tmp/dra-1"
      (Except.ok "/cwd")).2.1 rfl rfl⟩

end Dra
